import Mathlib

/-!
Verification of the conversation-identity and messaging subsystem of the
ads-platform backend (Express + Mongoose).

The development shallowly embeds the code of:
* `src/models/Chat.js` (the current chat schema: `ad`, `userA`, `userB`,
  a pre-save hook sorting the dyad, and the unique index on
  `(ad, userA, userB)`),
* `src/models/Conversation.js` (participants array, pre-save hook computing
  `participantsKey`, unique index on `(ad, participantsKey)`),
* `src/models/Message.js` (the current message schema: `conversation`,
  `sender`, `text` only),
* `src/controllers/chat.controller.js` (`startChat`, `unreadCount`,
  `getChats`, `getMessages`, `sendMessage`),
* `src/middlewares/error.middleware.js` (the global error handler and its
  duplicate-key / validation-error mappings),
* `src/routes/chat.routes.js` (the registered chat routes).

Mongoose semantics that the embedding reproduces explicitly:
* schemas are declared with `strict: true`, so fields passed to
  `Model.create` that are not schema paths are silently dropped before
  validation, and reading a non-schema path from a fetched document yields
  `undefined`;
* built-in validation (`required`, custom validators) runs before
  user-registered pre-save hooks;
* a unique index makes an insert fail with a duplicate-key error
  (`error.code === 11000`) exactly when an already-stored record has the
  same value on every indexed field.

Identifiers are modelled in their canonical string form: 24 lowercase hex
characters, the string form of a MongoDB ObjectId.
-/

namespace AdsPlatform

/-! ## JavaScript string primitives

JavaScript compares strings by code units and `Array.prototype.sort`
sorts by that order; `String.prototype.trim` strips leading and trailing
whitespace.  These are embedded over `List Char` so that all definitions
reduce inside the kernel.
-/

/-- Lexicographic (code-unit) comparison of two character lists; this is the
order JavaScript uses when `Array.prototype.sort` is called without a
comparator on an array of strings. -/
def jsLeChars : List Char → List Char → Bool
  | [], _ => true
  | _ :: _, [] => false
  | c :: cs, d :: ds =>
    if c < d then true
    else if d < c then false
    else jsLeChars cs ds

/-- Lexicographic comparison of two strings, JavaScript style. -/
def jsLe (a b : String) : Bool := jsLeChars a.data b.data

theorem jsLeChars_total (xs ys : List Char) :
    jsLeChars xs ys = true ∨ jsLeChars ys xs = true := by
  induction xs generalizing ys with
  | nil => left; rfl
  | cons c cs ih =>
    cases ys with
    | nil => right; rfl
    | cons d ds =>
      by_cases h1 : c < d
      · left; simp [jsLeChars, h1]
      · by_cases h2 : d < c
        · right; simp [jsLeChars, h2]
        · have hcd : c = d := le_antisymm (not_lt.mp h2) (not_lt.mp h1)
          subst hcd
          rcases ih ds with h | h
          · left; simp [jsLeChars, h1, h]
          · right; simp [jsLeChars, h1, h]

theorem jsLeChars_trans (xs ys zs : List Char) (h1 : jsLeChars xs ys = true)
    (h2 : jsLeChars ys zs = true) : jsLeChars xs zs = true := by
  induction xs generalizing ys zs with
  | nil => rfl
  | cons c cs ih =>
    cases ys with
    | nil => simp [jsLeChars] at h1
    | cons d ds =>
      cases zs with
      | nil => simp [jsLeChars] at h2
      | cons e es =>
        by_cases hcd : c < d
        · by_cases hde : d < e
          · simp [jsLeChars, lt_trans hcd hde]
          · by_cases hed : e < d
            · simp [jsLeChars, hde, hed] at h2
            · have : d = e := le_antisymm (not_lt.mp hed) (not_lt.mp hde)
              subst this
              simp [jsLeChars, hcd]
        · by_cases hdc : d < c
          · simp [jsLeChars, hcd, hdc] at h1
          · have : c = d := le_antisymm (not_lt.mp hdc) (not_lt.mp hcd)
            subst this
            simp only [jsLeChars, if_neg hcd, if_neg hdc] at h1
            by_cases hce : c < e
            · simp [jsLeChars, hce]
            · by_cases hec : e < c
              · simp [jsLeChars, hce, hec] at h2
              · have : c = e := le_antisymm (not_lt.mp hec) (not_lt.mp hce)
                subst this
                simp only [jsLeChars, if_neg hce, if_neg hec] at h2 ⊢
                exact ih ds es h1 h2

theorem jsLeChars_antisymm (xs ys : List Char) (h1 : jsLeChars xs ys = true)
    (h2 : jsLeChars ys xs = true) : xs = ys := by
  induction xs generalizing ys with
  | nil =>
    cases ys with
    | nil => rfl
    | cons d ds => simp [jsLeChars] at h2
  | cons c cs ih =>
    cases ys with
    | nil => simp [jsLeChars] at h1
    | cons d ds =>
      by_cases hcd : c < d
      · simp [jsLeChars, hcd, lt_asymm hcd] at h2
      · by_cases hdc : d < c
        · simp [jsLeChars, hcd, hdc] at h1
        · have : c = d := le_antisymm (not_lt.mp hdc) (not_lt.mp hcd)
          subst this
          simp only [jsLeChars, if_neg hcd] at h1 h2
          rw [ih ds h1 h2]

/-- The comparison used by `Array.prototype.sort` on strings, as a
relation. -/
def JsLeRel : String → String → Prop := fun a b => jsLe a b = true

instance : DecidableRel JsLeRel :=
  fun a b => inferInstanceAs (Decidable (jsLe a b = true))

instance : IsTotal String JsLeRel :=
  ⟨fun a b => jsLeChars_total a.data b.data⟩

instance : IsTrans String JsLeRel :=
  ⟨fun a b c h1 h2 => jsLeChars_trans a.data b.data c.data h1 h2⟩

instance : IsAntisymm String JsLeRel :=
  ⟨fun a b h1 h2 => String.ext (jsLeChars_antisymm a.data b.data h1 h2)⟩

/-- Embedding of `Array.prototype.sort()` (no comparator) on an array of
strings: a stable sort in code-unit order. -/
def jsSortStrings (l : List String) : List String :=
  List.insertionSort JsLeRel l

theorem jsSortStrings_perm_eq {l1 l2 : List String} (h : l1.Perm l2) :
    jsSortStrings l1 = jsSortStrings l2 :=
  List.eq_of_perm_of_sorted
    ((List.perm_insertionSort _ l1).trans (h.trans (List.perm_insertionSort _ l2).symm))
    (List.sorted_insertionSort _ l1) (List.sorted_insertionSort _ l2)

/-- Embedding of `Array.prototype.join(sep)`. -/
def jsJoin (sep : String) : List String → String
  | [] => ""
  | [x] => x
  | x :: xs => x ++ sep ++ jsJoin sep xs

/-- Embedding of `String.prototype.trim()`: strip leading and trailing
whitespace. -/
def jsTrim (s : String) : String :=
  ⟨((s.data.dropWhile Char.isWhitespace).reverse.dropWhile Char.isWhitespace).reverse⟩

/-- A character of the canonical (lowercase hex) string form of a MongoDB
ObjectId. -/
def isHexChar (c : Char) : Bool :=
  ('0' ≤ c && c ≤ '9') || ('a' ≤ c && c ≤ 'f')

/-- Embedding of `mongoose.Types.ObjectId.isValid` restricted to canonical id
strings: 24 lowercase hex characters.  (Mongoose also accepts any 12-character
string and uppercase hex, which normalize to this canonical form; every id the
system itself stores or returns is already canonical, so the embedding
quantifies over canonical ids throughout.) -/
def isValidObjectId (s : String) : Bool :=
  s.length == 24 && s.data.all isHexChar

/-! ## Canonical conversation identity

Three places in the source compute an order-independent identity for a
two-party conversation:
* `chat.controller.js` line 281:
  the two id strings sorted and joined with an underscore;
* the `Conversation` pre-save hook (`Conversation.js` lines 41-51):
  sorted participant ids joined with `":"`;
* the `Chat` pre-save hook (`Chat.js` lines 35-47): the dyad
  `(userA, userB)` is stored sorted by `localeCompare`, which on canonical
  hex id strings agrees with code-unit order.
-/

/-- The `participantsKey` computed by `startChat` (controller line 281). -/
def participantsKeyCtrl (me receiver : String) : String :=
  jsJoin "_" (jsSortStrings [me, receiver])

/-- The `participantsKey` computed by the `Conversation` pre-save hook:
sorted participant ids joined with `":"`. -/
def convKey (participants : List String) : String :=
  jsJoin ":" (jsSortStrings participants)

/-- The sorted dyad stored by the `Chat` pre-save hook:
`const [a, b] = [userA, userB].sort((x, y) => x.localeCompare(y))`. -/
def chatSortDyad (a b : String) : String × String :=
  match jsSortStrings [a, b] with
  | [x, y] => (x, y)
  | _ => (a, b)

/-- The identity used by `startChat` to look a chat up: the `(ad,
participantsKey)` pair of its `findOne` filter. -/
def chatIdentityKey (ad : Option String) (me receiver : String) :
    Option String × String :=
  (ad, participantsKeyCtrl me receiver)

theorem jsSortStrings_pair_swap (a b : String) :
    jsSortStrings [a, b] = jsSortStrings [b, a] :=
  jsSortStrings_perm_eq (List.Perm.swap b a [])

theorem jsSortStrings_pair (a b : String) :
    jsSortStrings [a, b] = if JsLeRel a b then [a, b] else [b, a] := by
  simp [jsSortStrings, List.insertionSort, List.orderedInsert]

theorem chatSortDyad_swap (a b : String) :
    chatSortDyad a b = chatSortDyad b a := by
  unfold chatSortDyad
  by_cases h1 : JsLeRel a b
  · by_cases h2 : JsLeRel b a
    · have : a = b := antisymm h1 h2
      subst this
      rfl
    · simp [jsSortStrings_pair, h1, h2]
  · have h2 : JsLeRel b a := (total_of JsLeRel a b).resolve_left h1
    simp [jsSortStrings_pair, h1, h2]

/-- C4: order independence of the canonical conversation key.  For all
distinct participant identifiers `a`, `b` and optional scope `s`, the
`participantsKey` built by `startChat`, the `(ad, participantsKey)` lookup
identity, the `Conversation` pre-save hook key, and the `Chat` pre-save dyad
are all invariant under swapping the two participant ids. -/
theorem canonicalKey_order_independent (a b : String) (s : Option String)
    (_hab : a ≠ b) :
    participantsKeyCtrl a b = participantsKeyCtrl b a ∧
    chatIdentityKey s a b = chatIdentityKey s b a ∧
    convKey [a, b] = convKey [b, a] ∧
    chatSortDyad a b = chatSortDyad b a := by
  have h := jsSortStrings_pair_swap a b
  refine ⟨?_, ?_, ?_, ?_⟩
  · simp [participantsKeyCtrl, h]
  · simp [chatIdentityKey, participantsKeyCtrl, h]
  · simp [convKey, h]
  · exact chatSortDyad_swap a b

/-- Witness for C4 at concrete canonical ids. -/
theorem canonicalKey_order_independent_witness :
    ("aaaaaaaaaaaaaaaaaaaaaaaa" : String) ≠ "bbbbbbbbbbbbbbbbbbbbbbbb" ∧
    participantsKeyCtrl "aaaaaaaaaaaaaaaaaaaaaaaa" "bbbbbbbbbbbbbbbbbbbbbbbb" =
      participantsKeyCtrl "bbbbbbbbbbbbbbbbbbbbbbbb" "aaaaaaaaaaaaaaaaaaaaaaaa" :=
  ⟨by decide,
   (canonicalKey_order_independent "aaaaaaaaaaaaaaaaaaaaaaaa"
     "bbbbbbbbbbbbbbbbbbbbbbbb" (some "cccccccccccccccccccccccc")
     (by decide)).1⟩

/-! ## The persistent stores

`models/Conversation.js` and `models/Chat.js` both declare a persistent
unique compound index (`(ad, participantsKey)` for conversations,
`(ad, userA, userB)` for chats).  The save path of a model is: built-in
validation (required fields, custom validators), then the user
pre-save hook, then the insert, which the unique index rejects with a
duplicate-key error when an already-stored record agrees on all indexed
fields. -/

/-- A stored `Conversation` document (schema paths of
`models/Conversation.js`; timestamps omitted). -/
structure ConvRecord where
  id : String
  participants : List String
  ad : String
  participantsKey : String
  lastMessage : Option String := none
deriving DecidableEq, Repr

/-- The fields of a `Conversation.create` payload that survive
`strict: true` (all of these are schema paths). -/
structure ConvDoc where
  participants : List String
  ad : Option String := none
  participantsKey : Option String := none
  lastMessage : Option String := none
deriving DecidableEq, Repr

/-- Errors a Mongoose save can produce: a validation error (per-field), or a
duplicate-key error (`code: 11000`) carrying the first field of the violated
index key and its value, as read by `handleDuplicateKeyError`. -/
inductive ModelError where
  | validation (fields : List String)
  | duplicateKey (keyField : String) (keyValue : String)
deriving DecidableEq, Repr

/-- JavaScript string interpolation of an optional id (`null` prints as
`"null"`). -/
def jsIdOrNull : Option String → String
  | none => "null"
  | some s => s

/-- Embedding of the `Conversation` model save path
(`models/Conversation.js`): validation requires exactly 2 participants, a
present `ad` and a present non-empty `participantsKey`; the pre-save
hook then overwrites `participantsKey` with the sorted participants joined
by `":"`; finally the insert is gated by the unique index on
`(ad, participantsKey)`. -/
def convSave (state : List ConvRecord) (newId : String) (d : ConvDoc) :
    Except ModelError (List ConvRecord) :=
  if d.participants.length ≠ 2 then .error (.validation ["participants"])
  else
    match d.ad, d.participantsKey with
    | none, _ => .error (.validation ["ad"])
    | some _, none => .error (.validation ["participantsKey"])
    | some ad, some pk =>
      if pk = "" then .error (.validation ["participantsKey"])
      else if state.any (fun r =>
          r.ad == ad && r.participantsKey == convKey d.participants) then
        .error (.duplicateKey "ad" ad)
      else
        .ok (state ++ [{ id := newId, participants := d.participants,
                         ad := ad, participantsKey := convKey d.participants,
                         lastMessage := d.lastMessage }])

/-- States of the `Conversation` collection reachable from empty through the
model save path.  Every application-level code path that writes a
conversation goes through this save, so any interleaving of requests
produces a reachable state; a failed save leaves the state unchanged. -/
inductive ConvReachable : List ConvRecord → Prop
  | empty : ConvReachable []
  | save (state : List ConvRecord) (newId : String) (d : ConvDoc)
      (next : List ConvRecord) :
      ConvReachable state → convSave state newId d = .ok next →
      ConvReachable next

/-- A stored `Chat` document (schema paths of the current
`models/Chat.js`: `ad`, `userA`, `userB`, `lastMessage`, `lastMessageAt`;
timestamps omitted). -/
structure ChatRecord where
  id : String
  ad : Option String := none
  userA : String
  userB : String
  lastMessage : String := ""
  lastMessageAt : Option Nat := none
deriving DecidableEq, Repr

/-- The fields of a `Chat.create` payload that survive `strict: true`
against the current `chatSchema` (whose only settable paths are `ad`,
`userA`, `userB`, `lastMessage`, `lastMessageAt`). -/
structure ChatDoc where
  ad : Option String := none
  userA : Option String := none
  userB : Option String := none
  lastMessage : String := ""
  lastMessageAt : Option Nat := none
deriving DecidableEq, Repr

/-- Embedding of the `Chat` model save path (`models/Chat.js`): validation
requires `userA` and `userB` (a Mongoose `required` string fails when absent
or empty); the pre-save hook then stores the dyad sorted by
`localeCompare`; finally the insert is gated by the unique index on
`(ad, userA, userB)`. -/
def chatSave (state : List ChatRecord) (newId : String) (d : ChatDoc) :
    Except ModelError (List ChatRecord) :=
  match d.userA, d.userB with
  | none, _ => .error (.validation ["userA"])
  | some _, none => .error (.validation ["userB"])
  | some ua, some ub =>
    if ua = "" then .error (.validation ["userA"])
    else if ub = "" then .error (.validation ["userB"])
    else if state.any (fun r =>
        r.ad == d.ad && r.userA == (chatSortDyad ua ub).1 &&
        r.userB == (chatSortDyad ua ub).2) then
      .error (.duplicateKey "ad" (jsIdOrNull d.ad))
    else
      .ok (state ++ [{ id := newId, ad := d.ad, userA := (chatSortDyad ua ub).1,
                       userB := (chatSortDyad ua ub).2,
                       lastMessage := d.lastMessage,
                       lastMessageAt := d.lastMessageAt }])

/-- States of the `Chat` collection reachable from empty through the model
save path. -/
inductive ChatReachable : List ChatRecord → Prop
  | empty : ChatReachable []
  | save (state : List ChatRecord) (newId : String) (d : ChatDoc)
      (next : List ChatRecord) :
      ChatReachable state → chatSave state newId d = .ok next →
      ChatReachable next

/-- Two chat records carry the same unordered participant pair. -/
def unorderedDyadEq (c1 c2 : ChatRecord) : Prop :=
  (c1.userA = c2.userA ∧ c1.userB = c2.userB) ∨
  (c1.userA = c2.userB ∧ c1.userB = c2.userA)

theorem chatSortDyad_eq (a b : String) :
    chatSortDyad a b = if JsLeRel a b then (a, b) else (b, a) := by
  unfold chatSortDyad
  rw [jsSortStrings_pair]
  by_cases h : JsLeRel a b <;> simp [h]

theorem chatSortDyad_sorted (a b : String) :
    JsLeRel (chatSortDyad a b).1 (chatSortDyad a b).2 := by
  rw [chatSortDyad_eq]
  by_cases h : JsLeRel a b
  · rw [if_pos h]
    exact h
  · rw [if_neg h]
    exact (total_of JsLeRel a b).resolve_left h

/-- The conversation-store invariant used to prove C1: stored
`participantsKey`s are the canonical sorted join, and no two records agree
on `(ad, participantsKey)`. -/
def convStoreInv (s : List ConvRecord) : Prop :=
  List.Pairwise (fun r1 r2 =>
    ¬ (r1.ad = r2.ad ∧ r1.participantsKey = r2.participantsKey)) s ∧
  ∀ r ∈ s, r.participantsKey = convKey r.participants

theorem convSave_ok_shape {state : List ConvRecord} {newId : String}
    {d : ConvDoc} {next : List ConvRecord}
    (h : convSave state newId d = Except.ok next) :
    ∃ ad, d.ad = some ad ∧
      (∀ r ∈ state,
        ¬ (r.ad = ad ∧ r.participantsKey = convKey d.participants)) ∧
      next = state ++ [{ id := newId, participants := d.participants,
                         ad := ad, participantsKey := convKey d.participants,
                         lastMessage := d.lastMessage }] := by
  unfold convSave at h
  split at h
  · exact absurd h (by simp)
  · split at h
    · exact absurd h (by simp)
    · exact absurd h (by simp)
    · split at h
      · exact absurd h (by simp)
      · split at h
        · exact absurd h (by simp)
        · rename_i hdup
          rw [Except.ok.injEq] at h
          refine ⟨_, by assumption, ?_, h.symm⟩
          intro r hr hcon
          exact hdup (List.any_eq_true.mpr
            ⟨r, hr, by simp [hcon.1, hcon.2]⟩)

theorem convReachable_inv {s : List ConvRecord} (h : ConvReachable s) :
    convStoreInv s := by
  induction h with
  | empty => exact ⟨List.Pairwise.nil, by simp⟩
  | save state newId d next _ hsave ih =>
    obtain ⟨ad, hadEq, hfresh, hnext⟩ := convSave_ok_shape hsave
    subst hnext
    constructor
    · rw [List.pairwise_append]
      refine ⟨ih.1, List.pairwise_singleton _ _, ?_⟩
      intro r hr y hy
      simp only [List.mem_singleton] at hy
      subst hy
      intro hcontra
      exact hfresh r hr ⟨hcontra.1, hcontra.2⟩
    · intro r hr
      rcases List.mem_append.mp hr with h1 | h1
      · exact ih.2 r h1
      · simp only [List.mem_singleton] at h1
        subst h1
        rfl

/-- The chat-store invariant used to prove C1 and C9: stored dyads are
sorted, and no two records agree on `(ad, userA, userB)`. -/
def chatStoreInv (s : List ChatRecord) : Prop :=
  List.Pairwise (fun c1 c2 =>
    ¬ (c1.ad = c2.ad ∧ c1.userA = c2.userA ∧ c1.userB = c2.userB)) s ∧
  ∀ c ∈ s, JsLeRel c.userA c.userB

theorem chatSave_ok_shape {state : List ChatRecord} {newId : String}
    {d : ChatDoc} {next : List ChatRecord}
    (h : chatSave state newId d = Except.ok next) :
    ∃ ua ub, d.userA = some ua ∧ d.userB = some ub ∧
      (∀ c ∈ state,
        ¬ (c.ad = d.ad ∧ c.userA = (chatSortDyad ua ub).1 ∧
           c.userB = (chatSortDyad ua ub).2)) ∧
      next = state ++ [{ id := newId, ad := d.ad,
                         userA := (chatSortDyad ua ub).1,
                         userB := (chatSortDyad ua ub).2,
                         lastMessage := d.lastMessage,
                         lastMessageAt := d.lastMessageAt }] := by
  unfold chatSave at h
  split at h
  · exact absurd h (by simp)
  · exact absurd h (by simp)
  · split at h
    · exact absurd h (by simp)
    · split at h
      · exact absurd h (by simp)
      · split at h
        · exact absurd h (by simp)
        · rename_i hdup
          rw [Except.ok.injEq] at h
          refine ⟨_, _, by assumption, by assumption, ?_, h.symm⟩
          intro c hc hcon
          exact hdup (List.any_eq_true.mpr
            ⟨c, hc, by simp [hcon.1, hcon.2.1, hcon.2.2]⟩)

theorem chatReachable_inv {s : List ChatRecord} (h : ChatReachable s) :
    chatStoreInv s := by
  induction h with
  | empty => exact ⟨List.Pairwise.nil, by simp⟩
  | save state newId d next _ hsave ih =>
    obtain ⟨ua, ub, huaEq, hubEq, hfresh, hnext⟩ := chatSave_ok_shape hsave
    subst hnext
    constructor
    · rw [List.pairwise_append]
      refine ⟨ih.1, List.pairwise_singleton _ _, ?_⟩
      intro c hc y hy
      simp only [List.mem_singleton] at hy
      subst hy
      intro hcontra
      exact hfresh c hc ⟨hcontra.1, hcontra.2.1, hcontra.2.2⟩
    · intro c hc
      rcases List.mem_append.mp hc with h1 | h1
      · exact ih.2 c h1
      · simp only [List.mem_singleton] at h1
        subst h1
        exact chatSortDyad_sorted _ _

theorem convKey_perm {ps qs : List String} (h : ps.Perm qs) :
    convKey ps = convKey qs := by
  unfold convKey
  rw [jsSortStrings_perm_eq h]

/-- Two sorted dyads carrying the same unordered pair are equal. -/
theorem sorted_dyad_unique (c1 c2 : ChatRecord)
    (h1 : JsLeRel c1.userA c1.userB) (h2 : JsLeRel c2.userA c2.userB)
    (h : unorderedDyadEq c1 c2) :
    c1.userA = c2.userA ∧ c1.userB = c2.userB := by
  rcases h with ⟨ha, hb⟩ | ⟨ha, hb⟩
  · exact ⟨ha, hb⟩
  · rw [ha, hb] at h1
    have hAA : c2.userA = c2.userB := antisymm h2 h1
    rw [ha, hb, hAA]
    exact ⟨rfl, rfl⟩

/-- C1: in every reachable state of the conversation store, at most one
record exists per (ad scope, unordered participant pair), and this is a
consequence of the persistent unique indexes alone — the reachability
relations are defined over the model save paths (`Conversation` with its
`(ad, participantsKey)` index, `Chat` with its `(ad, userA, userB)` index
over the hook-sorted dyad), with no reference to the application-level
check-then-insert, so the invariant holds for any
sequence or interleaving of `startChat` operations. -/
theorem conversation_store_uniqueness :
    (∀ s, ConvReachable s →
      List.Pairwise (fun r1 r2 : ConvRecord =>
        ¬ (r1.ad = r2.ad ∧ r1.participants.Perm r2.participants)) s) ∧
    (∀ s, ChatReachable s →
      List.Pairwise (fun c1 c2 : ChatRecord =>
        ¬ (c1.ad = c2.ad ∧ unorderedDyadEq c1 c2)) s) := by
  constructor
  · intro s hs
    obtain ⟨hpw, hkeys⟩ := convReachable_inv hs
    refine hpw.imp_of_mem ?_
    intro r1 r2 h1 h2 hnd hcontra
    exact hnd ⟨hcontra.1, by
      rw [hkeys r1 h1, hkeys r2 h2]
      exact convKey_perm hcontra.2⟩
  · intro s hs
    obtain ⟨hpw, hsorted⟩ := chatReachable_inv hs
    refine hpw.imp_of_mem ?_
    intro c1 c2 h1 h2 hnd hcontra
    obtain ⟨ha, hb⟩ := sorted_dyad_unique c1 c2 (hsorted c1 h1)
      (hsorted c2 h2) hcontra.2
    exact hnd ⟨hcontra.1, ha, hb⟩

/-- Witness for C1: a concrete two-record reachable state of each store,
with the uniqueness property instantiated on it. -/
theorem conversation_store_uniqueness_witness :
    List.Pairwise (fun r1 r2 : ConvRecord =>
      ¬ (r1.ad = r2.ad ∧ r1.participants.Perm r2.participants))
      [{ id := "cccccccccccccccccccccccc",
         participants := ["bbbbbbbbbbbbbbbbbbbbbbbb", "aaaaaaaaaaaaaaaaaaaaaaaa"],
         ad := "dddddddddddddddddddddddd",
         participantsKey :=
           "aaaaaaaaaaaaaaaaaaaaaaaa:bbbbbbbbbbbbbbbbbbbbbbbb" }] ∧
    List.Pairwise (fun c1 c2 : ChatRecord =>
      ¬ (c1.ad = c2.ad ∧ unorderedDyadEq c1 c2))
      [{ id := "cccccccccccccccccccccccc",
         ad := some "dddddddddddddddddddddddd",
         userA := "aaaaaaaaaaaaaaaaaaaaaaaa",
         userB := "bbbbbbbbbbbbbbbbbbbbbbbb" }] := by
  constructor
  · exact conversation_store_uniqueness.1 _
      (ConvReachable.save [] "cccccccccccccccccccccccc"
        { participants := ["bbbbbbbbbbbbbbbbbbbbbbbb", "aaaaaaaaaaaaaaaaaaaaaaaa"],
          ad := some "dddddddddddddddddddddddd",
          participantsKey := some "x" }
        [{ id := "cccccccccccccccccccccccc",
           participants := ["bbbbbbbbbbbbbbbbbbbbbbbb", "aaaaaaaaaaaaaaaaaaaaaaaa"],
           ad := "dddddddddddddddddddddddd",
           participantsKey :=
             "aaaaaaaaaaaaaaaaaaaaaaaa:bbbbbbbbbbbbbbbbbbbbbbbb" }]
        ConvReachable.empty rfl)
  · exact conversation_store_uniqueness.2 _
      (ChatReachable.save [] "cccccccccccccccccccccccc"
        { ad := some "dddddddddddddddddddddddd",
          userA := some "bbbbbbbbbbbbbbbbbbbbbbbb",
          userB := some "aaaaaaaaaaaaaaaaaaaaaaaa" }
        [{ id := "cccccccccccccccccccccccc",
           ad := some "dddddddddddddddddddddddd",
           userA := "aaaaaaaaaaaaaaaaaaaaaaaa",
           userB := "bbbbbbbbbbbbbbbbbbbbbbbb" }]
        ChatReachable.empty rfl)

/-- C9: the sorted-dyad invariant of the `Chat` model.  Every chat document
persisted through the model save path stores `userA ≤ userB` in
code-unit (`localeCompare`) order, regardless of the order the two ids were
supplied in — saving `(a, b)` and saving `(b, a)` persist the same dyad —
so the unique index on `(ad, userA, userB)` keys the unordered pair. -/
theorem chat_sorted_dyad_invariant :
    (∀ s, ChatReachable s → ∀ c ∈ s, JsLeRel c.userA c.userB) ∧
    (∀ a b : String, chatSortDyad a b = chatSortDyad b a) :=
  ⟨fun _ hs => (chatReachable_inv hs).2, chatSortDyad_swap⟩

/-- Witness for C9: a concrete state reached by saving an unsorted dyad
stores it sorted. -/
theorem chat_sorted_dyad_invariant_witness :
    JsLeRel
      (ChatRecord.userA
        { id := "cccccccccccccccccccccccc",
          ad := some "dddddddddddddddddddddddd",
          userA := "aaaaaaaaaaaaaaaaaaaaaaaa",
          userB := "bbbbbbbbbbbbbbbbbbbbbbbb" })
      (ChatRecord.userB
        { id := "cccccccccccccccccccccccc",
          ad := some "dddddddddddddddddddddddd",
          userA := "aaaaaaaaaaaaaaaaaaaaaaaa",
          userB := "bbbbbbbbbbbbbbbbbbbbbbbb" }) :=
  chat_sorted_dyad_invariant.1
    [{ id := "cccccccccccccccccccccccc",
       ad := some "dddddddddddddddddddddddd",
       userA := "aaaaaaaaaaaaaaaaaaaaaaaa",
       userB := "bbbbbbbbbbbbbbbbbbbbbbbb" }]
    (ChatReachable.save [] "cccccccccccccccccccccccc"
      { ad := some "dddddddddddddddddddddddd",
        userA := some "bbbbbbbbbbbbbbbbbbbbbbbb",
        userB := some "aaaaaaaaaaaaaaaaaaaaaaaa" }
      [{ id := "cccccccccccccccccccccccc",
         ad := some "dddddddddddddddddddddddd",
         userA := "aaaaaaaaaaaaaaaaaaaaaaaa",
         userB := "bbbbbbbbbbbbbbbbbbbbbbbb" }]
      ChatReachable.empty rfl)
    _ (List.mem_singleton.mpr rfl)

/-! ## The Message model and the Ad collection -/

/-- A stored `Message` document: the schema paths of the current
`models/Message.js` are `conversation`, `sender` and `text` only
(timestamps omitted). -/
structure MsgRecord where
  id : String
  conversation : String
  sender : String
  text : String
deriving DecidableEq, Repr

/-- The payload `sendMessage` passes to `Message.create`:
`{ chat, sender, receiver, text, isRead }` (controller lines 713-719). -/
structure MessagePayload where
  chat : String
  sender : String
  receiver : String
  text : String
  isRead : Bool
deriving DecidableEq, Repr

/-- The fields of a `Message.create` payload that survive `strict: true`
against `messageSchema`.  Only `conversation`, `sender` and `text` are
schema paths. -/
structure MessageDoc where
  conversation : Option String := none
  sender : Option String := none
  text : Option String := none
deriving DecidableEq, Repr

/-- Dropping the non-schema fields of the `sendMessage` payload: `chat`,
`receiver` and `isRead` are not `messageSchema` paths, and nothing supplies
`conversation`. -/
def messageStrip (p : MessagePayload) : MessageDoc :=
  { sender := some p.sender, text := some p.text }

/-- Embedding of the `Message` model save path (`models/Message.js`):
`conversation`, `sender` and `text` are required; `text` is trimmed and must
have length between 1 and 2000. -/
def messageSave (state : List MsgRecord) (newId : String) (d : MessageDoc) :
    Except ModelError (List MsgRecord) :=
  match d.conversation, d.sender, d.text with
  | none, _, _ => .error (.validation ["conversation"])
  | _, none, _ => .error (.validation ["sender"])
  | _, _, none => .error (.validation ["text"])
  | some cv, some sd, some t =>
    if jsTrim t = "" then .error (.validation ["text"])
    else if (jsTrim t).length > 2000 then .error (.validation ["text"])
    else .ok (state ++ [{ id := newId, conversation := cv, sender := sd,
                          text := jsTrim t }])

/-- A stored `Ad` document, reduced to the fields `startChat` selects
(`.select(...)` of `user seller owner createdBy`); `adSchema` declares only
`user` among these. -/
structure AdRecord where
  id : String
  user : Option String
deriving DecidableEq, Repr

/-- Embedding of the seller fallback chain in `startChat`:
`ad.user || ad.seller || ad.owner || ad.createdBy`.  `seller`, `owner` and
`createdBy` are not `adSchema` paths and read as `undefined`, so the chain
reduces to `ad.user`. -/
def AdRecord.sellerId (a : AdRecord) : Option String := a.user

/-! ## Reads of non-schema document paths

Documents fetched through a `strict: true` schema expose getters only for
schema paths; any other property reads as `undefined`.  The current code
reads three such paths. -/

/-- `chat.participantsKey` as read by the `findOne` filters of `startChat`:
not a path of the current `chatSchema`, hence `undefined` on every stored
document (and, under `strictQuery: false`, a filter on it matches no
document saved through the model). -/
def ChatRecord.participantsKeyField : ChatRecord → Option String :=
  fun _ => none

/-- `chat.participants` as read by `getMessages` and `sendMessage`: not a
path of the current `chatSchema` (the dyad is stored as `userA`/`userB`),
hence `undefined` on every stored document. -/
def ChatRecord.participantsField : ChatRecord → Option (List String) :=
  fun _ => none

/-- `message.receiver` as used in the `countDocuments`/`updateMany`/`find`
filters: not a `messageSchema` path, hence `undefined` on every stored
document. -/
def MsgRecord.receiverField : MsgRecord → Option String := fun _ => none

/-- `message.isRead`: not a `messageSchema` path. -/
def MsgRecord.isReadField : MsgRecord → Option Bool := fun _ => none

/-- `message.chat` as used by the `Message.find({ chat })` filter: not a
`messageSchema` path. -/
def MsgRecord.chatField : MsgRecord → Option String := fun _ => none

/-! ## HTTP layer and the error middleware -/

/-- The persistent state the chat controller operates on. -/
structure Store where
  ads : List AdRecord := []
  chats : List ChatRecord := []
  msgs : List MsgRecord := []
deriving DecidableEq, Repr

/-- An HTTP response, reduced to the fields the claims are about: status
code, the `success` flag, the `message` string, the returned chat id, the
returned message list of `getMessages`, and the `count` of `unreadCount`. -/
structure HttpResponse where
  status : Nat
  success : Bool
  message : String := ""
  chatId : Option String := none
  messages : Option (List MsgRecord) := none
  count : Option Nat := none
deriving DecidableEq, Repr

/-- A JavaScript error value as seen by the error middleware: an operational
`AppError` with a status code, a Mongoose validation error, a duplicate-key
error (`code: 11000`), or a plain runtime error such as a `TypeError`
(whose `statusCode` is `undefined`). -/
inductive JsError where
  | appError (statusCode : Nat) (message : String)
  | validationError (fields : List String)
  | duplicateKey (keyField : String) (keyValue : String)
  | typeError (message : String)
deriving DecidableEq, Repr

/-- `field.charAt(0).toUpperCase() + field.slice(1)`. -/
def jsCapitalize (s : String) : String :=
  match s.data with
  | [] => ""
  | c :: cs => ⟨c.toUpper :: cs⟩

/-- A single-quote character, written by code point to keep the source free
of quote characters. -/
def squote : String := ⟨[Char.ofNat 39]⟩

/-- The message built by `handleDuplicateKeyError`
(error.middleware.js lines 22-28): the capitalized first indexed field and
its value, quoted, followed by `already exists`. -/
def handleDuplicateKeyMessage (f v : String) : String :=
  jsCapitalize f ++ " " ++ squote ++ v ++ squote ++ " already exists"

/-- Embedding of the global `errorHandler` (error.middleware.js): a
duplicate-key error becomes a 400 already-exists `AppError` via
`handleDuplicateKeyError`; a Mongoose validation error becomes a 400
`Validation failed`; an `AppError` passes through with its own status; any
other error (no `statusCode`) falls to the 500 default. -/
def errorHandler : JsError → HttpResponse
  | .appError sc msg => { status := sc, success := false, message := msg }
  | .validationError _ =>
    { status := 400, success := false, message := "Validation failed" }
  | .duplicateKey f v =>
    { status := 400, success := false,
      message := handleDuplicateKeyMessage f v }
  | .typeError msg => { status := 500, success := false, message := msg }

/-! ## startChat (chat.controller.js lines 99-459) -/

/-- The parts of the request `startChat` reads: the authenticated user id
(absent when authentication failed) and the `receiverId` / `adId` / `ad`
body fields (absent or a string; the controller treats non-string bodies
through the same falsiness checks). -/
structure StartChatRequest where
  user : Option String := none
  receiverId : Option String := none
  adId : Option String := none
  ad : Option String := none
deriving DecidableEq, Repr

/-- JavaScript truthiness of an optional string: `null`, `undefined` and the
empty string are falsy. -/
def jsTruthy : Option String → Option String
  | none => none
  | some s => if s = "" then none else some s

/-- `req.body.adId ?? req.body.ad` (nullish coalescing). -/
def jsNullish (a b : Option String) : Option String :=
  match a with
  | some x => some x
  | none => b

/-- A 400 response with `success: false`, as the inline validation returns
of `startChat` produce. -/
def resp400 (msg : String) : HttpResponse :=
  { status := 400, success := false, message := msg }

/-- The payload `startChat` passes to `Chat.create`
(controller lines 326-330): `{ ad, participants, participantsKey }`. -/
structure ChatCreatePayload where
  ad : Option String
  participants : List String
  participantsKey : String
deriving DecidableEq, Repr

/-- Dropping the non-schema fields of the `Chat.create` payload: the current
`chatSchema` declares no `participants` or `participantsKey` path, so under
`strict: true` only `ad` survives; `userA` and `userB` are never supplied. -/
def chatStrip (p : ChatCreatePayload) : ChatDoc :=
  { ad := p.ad }

/-- The recovery lookup shared by the happy path and the duplicate-key catch
branch: `Chat.findOne({ ad, participantsKey })`.  Since `participantsKey`
is not a `chatSchema` path, the filter is kept verbatim (Mongoose ≥ 7
`strictQuery: false`) and compares against the undefined
`participantsKeyField` of each stored record. -/
def chatFindByKey (chats : List ChatRecord) (adId : String) (key : String) :
    Option ChatRecord :=
  chats.find? (fun r =>
    r.ad == some adId && r.participantsKeyField == some key)

/-- Embedding of the duplicate-key catch branch of `startChat`
(controller lines 381-457): when the insert failed with `code === 11000`,
re-validate the ids from the raw request, re-read by
`(ad, participantsKey)`, and return the existing chat with
200 `Chat already exists` when found; in every other case the original
duplicate-key error is passed to `next(error)`, i.e. to the error
middleware. -/
def startChatDupRecovery (req : StartChatRequest) (st : Store)
    (orig : JsError) : HttpResponse :=
  match jsTruthy req.user, jsTruthy req.receiverId,
      jsTruthy (jsNullish req.adId req.ad) with
  | some me, some rraw, some araw =>
    if isValidObjectId rraw && isValidObjectId araw then
      match chatFindByKey st.chats araw (participantsKeyCtrl me rraw) with
      | some existing =>
        { status := 200, success := true, message := "Chat already exists",
          chatId := some existing.id }
      | none => errorHandler orig
    else resp400 "Validation failed"
  | _, _, _ => resp400 "Validation failed"

/-- Embedding of `startChat` (controller lines 99-459): authentication
check, the `receiverId`/`adId` presence, trim and format validations, the
self-chat check, the ad-existence and seller checks, the
`(ad, participantsKey)` lookup and, on a miss, `Chat.create` with the
Mongoose `ValidationError` and duplicate-key catch branches. -/
def startChat (req : StartChatRequest) (st : Store) (newId : String) :
    HttpResponse × Store :=
  match jsTruthy req.user with
  | none =>
    ({ status := 401, success := false, message := "Authentication required" },
     st)
  | some me =>
    match jsTruthy req.receiverId with
    | none =>
      (resp400 "receiverId is required and must be a non-empty string", st)
    | some rraw =>
      if jsTrim rraw = "" then
        (resp400 "receiverId is required and must be a non-empty string", st)
      else
      match jsTruthy (jsNullish req.adId req.ad) with
      | none =>
        (resp400 "adId is required and must be a non-empty string", st)
      | some araw =>
        if araw = "null" ∨ araw = "undefined" then
          (resp400 "adId is required and must be a non-empty string", st)
        else if jsTrim araw = "" then
          (resp400 "adId is required and must be a non-empty string", st)
        else if ¬ isValidObjectId (jsTrim rraw) then
          (resp400 "Invalid receiverId format", st)
        else if ¬ isValidObjectId (jsTrim araw) then
          (resp400 "Invalid adId format", st)
        else if jsTrim rraw = me then
          (resp400 "Cannot start chat with yourself", st)
        else
          match st.ads.find? (fun a => a.id == jsTrim araw) with
          | none =>
            ({ status := 404, success := false, message := "Ad not found" },
             st)
          | some ad =>
            match ad.sellerId with
            | none =>
              ({ status := 500, success := false,
                 message := "Ad seller not found" }, st)
            | some seller =>
              if jsTrim rraw ≠ seller then
                (resp400 "receiverId must match ad owner", st)
              else
                match chatFindByKey st.chats (jsTrim araw)
                    (participantsKeyCtrl me (jsTrim rraw)) with
                | some existing =>
                  ({ status := 200, success := true,
                     message := "Chat already exists",
                     chatId := some existing.id }, st)
                | none =>
                  match chatSave st.chats newId (chatStrip
                      { ad := some (jsTrim araw),
                        participants := [me, jsTrim rraw],
                        participantsKey :=
                          participantsKeyCtrl me (jsTrim rraw) }) with
                  | .ok newChats =>
                    ({ status := 201, success := true,
                       message := "Chat created", chatId := some newId },
                     { st with chats := newChats })
                  | .error (.validation _) =>
                    (resp400 "Validation failed", st)
                  | .error (.duplicateKey f v) =>
                    (startChatDupRecovery req st (.duplicateKey f v), st)

/-! ## getMessages, sendMessage, unreadCount (chat.controller.js) -/

/-- Embedding of `getMessages` (controller lines 557-625): authentication,
id-format check, chat lookup, the participant check
(`chat.participants.some(...)`, which throws a `TypeError` passed to the
error middleware because `participants` is not a path of the current
`chatSchema`), then the message query, the bulk mark-as-read update
(`updateMany({ chat, receiver, isRead: false }, { $set: { isRead: true } })`,
whose filter fields are not `messageSchema` paths and whose `$set` path is
not either, so no stored document is modified), and the 200 response. -/
def getMessages (userId : Option String) (chatId : String) (st : Store) :
    HttpResponse × Store :=
  match userId with
  | none =>
    ({ status := 401, success := false, message := "Authentication required" },
     st)
  | some uid =>
    if ¬ isValidObjectId chatId then
      (errorHandler (.appError 400 "Invalid chat ID format"), st)
    else
      match st.chats.find? (fun c => c.id == chatId) with
      | none => (errorHandler (.appError 404 "Chat not found"), st)
      | some chat =>
        match chat.participantsField with
        | none =>
          (errorHandler (.typeError
            "Cannot read properties of undefined (reading some)"), st)
        | some ps =>
          if ps.any (fun p => p == uid) then
            ({ status := 200, success := true,
               messages := some (st.msgs.filter
                 (fun m => m.chatField == some chatId)) }, st)
          else
            (errorHandler (.appError 403
              "Access denied. You are not a participant in this chat"), st)

/-- Embedding of `sendMessage` (controller lines 631-746): authentication,
id-format check, the text validations, chat lookup, the participant check
(again a `TypeError` on the current schema), receiver derivation, and
`Message.create` followed by the `lastMessage` update. -/
def sendMessage (userId : Option String) (chatId : String)
    (text : Option String) (st : Store) (newMsgId : String) :
    HttpResponse × Store :=
  match userId with
  | none => (errorHandler (.appError 401 "Authentication required"), st)
  | some uid =>
    if ¬ isValidObjectId chatId then
      (errorHandler (.appError 400 "Invalid chat ID format"), st)
    else
      match jsTruthy text with
      | none => (errorHandler (.appError 400 "Message text is required"), st)
      | some t =>
        if jsTrim t = "" then
          (errorHandler (.appError 400 "Message text is required"), st)
        else if (jsTrim t).length > 2000 then
          (errorHandler (.appError 400
            "Message text cannot exceed 2000 characters"), st)
        else
          match st.chats.find? (fun c => c.id == chatId) with
          | none => (errorHandler (.appError 404 "Chat not found"), st)
          | some chat =>
            match chat.participantsField with
            | none =>
              (errorHandler (.typeError
                "Cannot read properties of undefined (reading some)"), st)
            | some ps =>
              if ¬ ps.any (fun p => p == uid) then
                (errorHandler (.appError 403
                  "Access denied. You are not a participant in this chat"),
                 st)
              else
                match ps.find? (fun p => p ≠ uid) with
                | none =>
                  (errorHandler (.appError 400 "Cannot determine receiver"),
                   st)
                | some receiver =>
                  match messageSave st.msgs newMsgId (messageStrip
                      { chat := chatId, sender := uid, receiver := receiver,
                        text := jsTrim t, isRead := false }) with
                  | .error e =>
                    (errorHandler (match e with
                      | .validation fs => .validationError fs
                      | .duplicateKey f v => .duplicateKey f v), st)
                  | .ok newMsgs =>
                    ({ status := 201, success := true }, { st with
                      msgs := newMsgs,
                      chats := st.chats.map (fun c =>
                        if c.id == chatId then
                          { c with lastMessage := newMsgId } else c) })

/-- Embedding of `unreadCount` (controller lines 465-493):
`Message.countDocuments({ receiver: userId, isRead: false })` over the
stored documents, whose filter fields are not `messageSchema` paths. -/
def unreadCountCtrl (userId : Option String) (st : Store) : HttpResponse :=
  match userId with
  | none =>
    { status := 401, success := false, message := "Authentication required" }
  | some uid =>
    { status := 200, success := true,
      count := some (st.msgs.filter (fun m =>
        m.receiverField == some uid && m.isReadField == some false)).length }

/-! ## checkConversationAccess (chatAccess.middleware.js)

The middleware guards by the `Conversation` model, whose schema does
declare `participants`; it is registered on no route in
`chat.routes.js`. -/

/-- Embedding of `checkConversationAccess`: id-format check, conversation
lookup, participant check; on success the conversation is attached to the
request. -/
def checkConversationAccess (uid : String) (conversationId : String)
    (convs : List ConvRecord) : Except HttpResponse ConvRecord :=
  if ¬ isValidObjectId conversationId then
    .error (errorHandler (.appError 400 "Invalid conversation ID format"))
  else
    match convs.find? (fun c => c.id == conversationId) with
    | none => .error (errorHandler (.appError 404 "Conversation not found"))
    | some conversation =>
      if conversation.participants.any (fun p => p == uid) then
        .ok conversation
      else
        .error (errorHandler (.appError 403
          "Access denied. You are not a participant in this conversation"))

/-! ## getChats (chat.controller.js lines 499-551)

The unread counts are produced by one aggregation:
`$match { receiver, isRead: false }` then
`$group { _id: "$chat", count: { $sum: 1 } }`.  An aggregation pipeline
bypasses schema casting and strict-query filtering, so it reads the raw
stored fields; legacy documents carrying `chat`, `receiver` and `isRead`
are therefore matched and grouped by their raw values. -/

/-- A raw message document as the aggregation pipeline sees it. -/
structure RawMsg where
  chat : String
  receiver : String
  isRead : Bool
deriving DecidableEq, Repr

/-- The documents passing the `$match` stage. -/
def unreadMatches (msgs : List RawMsg) (u : String) : List RawMsg :=
  msgs.filter (fun m => m.receiver == u && !m.isRead)

/-- The `$group` stage: one bucket per distinct `chat` value among the
matched documents, with its count. -/
def unreadAgg (msgs : List RawMsg) (u : String) : List (String × Nat) :=
  ((unreadMatches msgs u).map (fun m => m.chat)).dedup.map
    (fun c => (c, (unreadMatches msgs u).countP (fun m => m.chat == c)))

/-- `unreadAgg.reduce((sum, x) => sum + x.count, 0)` (controller line 535). -/
def totalUnreadOf (msgs : List RawMsg) (u : String) : Nat :=
  ((unreadAgg msgs u).map (fun b => b.2)).sum

/-- `unreadMap.get(String(chat._id)) || 0` (controller line 540), with the
map built from the aggregation buckets. -/
def unreadMapGet (msgs : List RawMsg) (u : String) (chatId : String) : Nat :=
  ((unreadAgg msgs u).lookup chatId).getD 0

/-- The `getChats` response body: the chats of the caller, each paired with
its `unreadCount` field, plus `totalUnread`. -/
structure GetChatsResponse where
  chats : List (ChatRecord × Nat)
  totalUnread : Nat
deriving DecidableEq, Repr

/-- Embedding of the `getChats` response construction (controller lines
515-547), parameterized by the chat list returned by
`Chat.find({ participants: userObjectId })` — the per-chat and total unread
arithmetic is downstream of that query and independent of it. -/
def getChatsResp (chats : List ChatRecord) (msgs : List RawMsg)
    (u : String) : GetChatsResponse :=
  { chats := chats.map (fun c => (c, unreadMapGet msgs u c.id)),
    totalUnread := totalUnreadOf msgs u }

/-! ## The registered routes (chat.routes.js) -/

/-- A segment of a route pattern: a literal, or a path parameter such as
the id segment. -/
inductive RouteSeg where
  | lit (s : String)
  | param
deriving DecidableEq, Repr

/-- The handlers exported by `chat.controller.js` that `chat.routes.js`
imports. -/
inductive ChatHandler where
  | startChatH
  | getChatsH
  | getMessagesH
  | sendMessageH
deriving DecidableEq, Repr

/-- The HTTP method of a route. -/
inductive HttpMethod where
  | get
  | post
deriving DecidableEq, Repr

/-- The four routes registered by `chat.routes.js`:
`POST /start`, `GET /`, `GET /:id/messages`, `POST /:id/messages`.
No route for `unread-count` is registered and the `unreadCount` handler is
not imported. -/
def chatRoutes : List (HttpMethod × List RouteSeg × ChatHandler) :=
  [(.post, [.lit "start"], .startChatH),
   (.get, [], .getChatsH),
   (.get, [.param, .lit "messages"], .getMessagesH),
   (.post, [.param, .lit "messages"], .sendMessageH)]

/-- Whether a route pattern matches a concrete path (split into
segments). -/
def routeMatches : List RouteSeg → List String → Bool
  | [], [] => true
  | .lit s :: rs, t :: ts => s == t && routeMatches rs ts
  | .param :: rs, _ :: ts => routeMatches rs ts
  | _, _ => false

/-- Express dispatch over the registered chat routes: the first route whose
method and pattern match. -/
def matchChatRoute (m : HttpMethod) (path : List String) :
    Option ChatHandler :=
  (chatRoutes.find? (fun r => r.1 == m && routeMatches r.2.1 path)).map
    (fun r => r.2.2)

/-! ## Concrete fixtures used by the closed theorems -/

/-- A canonical user id. -/
def uidA : String := "aaaaaaaaaaaaaaaaaaaaaaaa"

/-- A second canonical user id, the ad owner. -/
def uidB : String := "bbbbbbbbbbbbbbbbbbbbbbbb"

/-- A third canonical user id, not a participant. -/
def uidC : String := "ffffffffffffffffffffffff"

/-- A canonical ad id. -/
def adId1 : String := "dddddddddddddddddddddddd"

/-- A canonical chat id. -/
def chatId1 : String := "cccccccccccccccccccccccc"

/-- A canonical message id. -/
def msgId1 : String := "eeeeeeeeeeeeeeeeeeeeeeee"

/-- An ad owned by `uidB`. -/
def adRec1 : AdRecord := { id := adId1, user := some uidB }

/-- A chat between `uidA` and `uidB`, shaped as the current `Chat` model
persists it (sorted dyad). -/
def chatRec1 : ChatRecord :=
  { id := chatId1, ad := some adId1, userA := uidA, userB := uidB }

/-- The store before any chat exists: just the ad. -/
def storeStart : Store := { ads := [adRec1] }

/-- The store with the existing chat `chatRec1`. -/
def storeWithChat : Store := { ads := [adRec1], chats := [chatRec1] }

/-- A valid `startChat` request from `uidA` to the owner of `adId1`. -/
def startReq : StartChatRequest :=
  { user := some uidA, receiverId := some uidB, adId := some adId1 }

/-- A 2000-character text. -/
def text2000 : String := ⟨List.replicate 2000 'x'⟩

/-- A 2001-character text. -/
def text2001 : String := ⟨List.replicate 2001 'x'⟩

/-! ## Claim theorems for the controller layer -/

theorem isValidObjectId_ne_empty {s : String}
    (h : isValidObjectId s = true) : s ≠ "" := by
  intro heq
  subst heq
  simp [isValidObjectId] at h

/-- C3 (code bug): sequential idempotent creation fails at the first call.
On a valid request (distinct users, existing ad owned by the receiver)
against an empty chat collection, `startChat` does not answer 201
`Chat created`: its `Chat.create` payload loses `participants` and
`participantsKey` to `strict: true` (neither is a path of the current
`chatSchema`), validation fails on the required `userA`/`userB`, and the
controller maps the Mongoose `ValidationError` to 400 `Validation failed`;
no record is created, so a second sequential call behaves identically
instead of answering 200 with the same id. -/
theorem startChat_first_call_not_created :
    (startChat startReq storeStart chatId1).1.status = 400 ∧
    (startChat startReq storeStart chatId1).1.message = "Validation failed" ∧
    (startChat startReq storeStart chatId1).2 = storeStart ∧
    (startChat startReq (startChat startReq storeStart chatId1).2
        chatId1).1.status = 400 ∧
    chatSave [] chatId1 (chatStrip
      { ad := some adId1, participants := [uidA, uidB],
        participantsKey := participantsKeyCtrl uidA uidB }) =
      Except.error (ModelError.validation ["userA"]) :=
  ⟨rfl, rfl, rfl, rfl, rfl⟩

/-- C2 counterexample: in the pathological case — a duplicate-key error
whose recovery read finds no record — `startChat` surfaces the original
duplicate-key error through the error middleware as a 400 already-exists
response (`handleDuplicateKeyError`), not as a ConflictError (409 or
500). -/
theorem startChat_dupkey_pathological_status :
    (startChatDupRecovery startReq storeStart
        (.duplicateKey "ad" adId1)).status = 400 ∧
    (startChatDupRecovery startReq storeStart
        (.duplicateKey "ad" adId1)).message =
      handleDuplicateKeyMessage "ad" adId1 ∧
    ¬ ((startChatDupRecovery startReq storeStart
        (.duplicateKey "ad" adId1)).status = 409 ∨
       (startChatDupRecovery startReq storeStart
        (.duplicateKey "ad" adId1)).status = 500) :=
  ⟨rfl, rfl, by decide⟩

/-- C2 (amended): if the insert attempted by `startChat` fails with a
duplicate-key error, the catch branch re-validates the ids and performs a
recovery read by `(ad, participantsKey)`; when a record is found it
returns 200 `Chat already exists` with that record, so the duplicate key
is not caller-visible; when the recovery read finds no record, the
original duplicate-key error is passed once to the error middleware —
never retried again — which surfaces it as a 400 already-exists error. -/
theorem startChat_dupkey_recovery (me rraw araw f v : String) (st : Store)
    (hm : me ≠ "") (hr : isValidObjectId rraw = true)
    (ha : isValidObjectId araw = true) :
    (∀ c, chatFindByKey st.chats araw (participantsKeyCtrl me rraw) = some c →
      startChatDupRecovery
        { user := some me, receiverId := some rraw, adId := some araw }
        st (.duplicateKey f v) =
        { status := 200, success := true, message := "Chat already exists",
          chatId := some c.id }) ∧
    (chatFindByKey st.chats araw (participantsKeyCtrl me rraw) = none →
      startChatDupRecovery
        { user := some me, receiverId := some rraw, adId := some araw }
        st (.duplicateKey f v) = errorHandler (.duplicateKey f v) ∧
      (errorHandler (.duplicateKey f v)).status = 400) := by
  have hrne : rraw ≠ "" := isValidObjectId_ne_empty hr
  have hane : araw ≠ "" := isValidObjectId_ne_empty ha
  constructor
  · intro c hc
    simp [startChatDupRecovery, jsTruthy, jsNullish, hm, hrne, hane, hr, ha,
      hc]
  · intro hc
    refine ⟨?_, rfl⟩
    simp [startChatDupRecovery, jsTruthy, jsNullish, hm, hrne, hane, hr, ha,
      hc]

/-- Witness for C2: the amended recovery behavior instantiated on a
concrete store with no matching record. -/
theorem startChat_dupkey_recovery_witness :
    startChatDupRecovery
      { user := some uidA, receiverId := some uidB, adId := some adId1 }
      storeStart (.duplicateKey "ad" adId1) =
      errorHandler (.duplicateKey "ad" adId1) :=
  ((startChat_dupkey_recovery uidA uidB adId1 "ad" adId1 storeStart
      (by decide) (by decide) (by decide)).2 (by decide)).1

/-- C5 (code bug): the read-state scenario cannot even begin.  With an
existing chat between A and B (as the current `Chat` model persists it),
a message sent by A is never created: `sendMessage` crashes with a
`TypeError` (surfaced as 500) when it reads `chat.participants`, which is
not a path of the current `chatSchema`; moreover the `Message.create`
payload itself would fail validation, because `chat`, `receiver` and
`isRead` are not `messageSchema` paths and the required `conversation` is
never supplied; and the unread count of the `unreadCount` controller is 0
for every user in every store, because its filter reads the non-schema
`receiver`/`isRead` paths. -/
theorem sendMessage_read_state_broken :
    (sendMessage (some uidA) chatId1 (some "hello") storeWithChat
        msgId1).1.status = 500 ∧
    (sendMessage (some uidA) chatId1 (some "hello") storeWithChat
        msgId1).2.msgs = [] ∧
    messageSave [] msgId1 (messageStrip
      { chat := chatId1, sender := uidA, receiver := uidB,
        text := "hello", isRead := false }) =
      Except.error (ModelError.validation ["conversation"]) ∧
    (∀ st u, (unreadCountCtrl (some u) st).count = some 0) := by
  refine ⟨rfl, rfl, rfl, ?_⟩
  intro st u
  simp [unreadCountCtrl, MsgRecord.receiverField]

/-- C6 (code bug): a non-participant calling `getMessages` or `sendMessage`
on an existing chat receives a 500 response — the participant check itself
throws a `TypeError` because `chat.participants` is not a path of the
current `chatSchema` — not 403 or 404; no message content is ever
returned.  The unrouted `checkConversationAccess` middleware, which guards
by the `Conversation` model whose schema does declare `participants`, does
answer 403 for a non-participant. -/
theorem nonparticipant_access_responses :
    (getMessages (some uidC) chatId1 storeWithChat).1.status = 500 ∧
    (getMessages (some uidC) chatId1 storeWithChat).1.messages = none ∧
    (sendMessage (some uidC) chatId1 (some "hi") storeWithChat
        msgId1).1.status = 500 ∧
    ((getMessages (some uidC) chatId1 storeWithChat).1.status ≠ 403 ∧
     (getMessages (some uidC) chatId1 storeWithChat).1.status ≠ 404) ∧
    checkConversationAccess uidC chatId1
      [{ id := chatId1, participants := [uidA, uidB], ad := adId1,
         participantsKey := convKey [uidA, uidB] }] =
      Except.error (errorHandler (.appError 403
        "Access denied. You are not a participant in this conversation")) :=
  ⟨rfl, rfl, rfl, by decide, rfl⟩

/-- C7 (code bug): `chat.routes.js` registers no route for `unread-count`
(`GET /api/chats/unread-count` matches none of the four registered routes,
so Express falls through to the global 404 handler), although the
`unreadCount` controller exists and, per its own code, answers 401 without
an authenticated user and 200 with a `count` otherwise. -/
theorem unread_count_route_missing :
    matchChatRoute .get ["unread-count"] = none ∧
    matchChatRoute .get [] = some .getChatsH ∧
    (∀ st, (unreadCountCtrl none st).status = 401) ∧
    (∀ st u, (unreadCountCtrl (some u) st).status = 200) :=
  ⟨rfl, rfl, fun _ => rfl, fun _ _ => rfl⟩

/-- C8 (code bug): the failure half of the boundary holds — a text whose
trimmed length is 2001 fails with 400
`Message text cannot exceed 2000 characters`, and whitespace-only text
fails with 400 `Message text is required` — but a 2000-character text does
not succeed with 201: past the text checks, `sendMessage` crashes with a
`TypeError` (surfaced as 500) on `chat.participants` and creates no
message. -/
theorem dropWhile_ws_replicate_x (n : Nat) :
    List.dropWhile Char.isWhitespace (List.replicate n 'x') =
      List.replicate n 'x' := by
  have hx : Char.isWhitespace 'x' = false := by decide
  cases n with
  | zero => rfl
  | succ m => simp [List.replicate_succ, List.dropWhile_cons, hx]

theorem jsTrim_replicate_x (n : Nat) :
    jsTrim ⟨List.replicate n 'x'⟩ = ⟨List.replicate n 'x'⟩ := by
  unfold jsTrim
  have hdata : (⟨List.replicate n 'x'⟩ : String).data =
      List.replicate n 'x' := rfl
  rw [hdata, dropWhile_ws_replicate_x, List.reverse_replicate,
    dropWhile_ws_replicate_x, List.reverse_replicate]

theorem length_string_replicate (n : Nat) (c : Char) :
    (⟨List.replicate n c⟩ : String).length = n := by
  simp [String.length]

theorem string_replicate_ne_empty {n : Nat} (c : Char) (h : 0 < n) :
    (⟨List.replicate n c⟩ : String) ≠ "" := by
  intro he
  have hlen := congrArg String.length he
  rw [length_string_replicate] at hlen
  simp [String.length] at hlen
  omega

/-- The common tail of `sendMessage` for a fixed-point text (one that
trimming leaves unchanged) sent by a participant of `chatRec1`: either the
over-length 400, or — past all text checks — the `TypeError` from reading
the non-schema `chat.participants`, surfaced as 500. -/
theorem sendMessage_trimmed_path (t : String) (ht : t ≠ "")
    (htrim : jsTrim t = t) :
    sendMessage (some uidA) chatId1 (some t) storeWithChat msgId1 =
      if t.length > 2000 then
        (errorHandler (.appError 400
          "Message text cannot exceed 2000 characters"), storeWithChat)
      else
        (errorHandler (.typeError
          "Cannot read properties of undefined (reading some)"),
         storeWithChat) := by
  have hvalid : isValidObjectId chatId1 = true := by decide
  have hfind : storeWithChat.chats.find? (fun c => c.id == chatId1) =
      some chatRec1 := rfl
  simp only [sendMessage, jsTruthy, if_neg ht, htrim, hvalid, hfind,
    ChatRecord.participantsField, not_true, Bool.not_eq_true, if_false]

/-- C8 (code bug): the failure half of the boundary holds — a trim-fixed
text of length 2001 fails with 400
`Message text cannot exceed 2000 characters`, and whitespace-only text
fails with 400 `Message text is required` — but a 2000-character text does
not succeed with 201: past the text checks, `sendMessage` crashes with a
`TypeError` (surfaced as 500) on `chat.participants`, which is not a path
of the current `chatSchema`, and creates no message. -/
theorem sendMessage_text_boundary :
    (∀ t : String, t ≠ "" → jsTrim t = t → t.length = 2001 →
      (sendMessage (some uidA) chatId1 (some t) storeWithChat msgId1).1 =
        errorHandler (.appError 400
          "Message text cannot exceed 2000 characters")) ∧
    (sendMessage (some uidA) chatId1 (some "   ") storeWithChat
        msgId1).1.status = 400 ∧
    (sendMessage (some uidA) chatId1 (some "   ") storeWithChat
        msgId1).1.message = "Message text is required" ∧
    (∀ t : String, t ≠ "" → jsTrim t = t → t.length = 2000 →
      (sendMessage (some uidA) chatId1 (some t) storeWithChat
          msgId1).1.status = 500 ∧
      (sendMessage (some uidA) chatId1 (some t) storeWithChat
          msgId1).2.msgs = []) := by
  refine ⟨?_, rfl, rfl, ?_⟩
  · intro t ht htrim hlen
    rw [sendMessage_trimmed_path t ht htrim, if_pos (by omega)]
  · intro t ht htrim hlen
    rw [sendMessage_trimmed_path t ht htrim, if_neg (by omega)]
    exact ⟨rfl, rfl⟩

/-- Witness for C8: the boundary theorem instantiated at the concrete
2001- and 2000-character texts. -/
theorem sendMessage_text_boundary_witness :
    (sendMessage (some uidA) chatId1 (some text2001) storeWithChat
        msgId1).1 =
      errorHandler (.appError 400
        "Message text cannot exceed 2000 characters") ∧
    (sendMessage (some uidA) chatId1 (some text2000) storeWithChat
        msgId1).1.status = 500 :=
  ⟨sendMessage_text_boundary.1 text2001
      (string_replicate_ne_empty _ (by decide)) (jsTrim_replicate_x 2001)
      (length_string_replicate 2001 _),
   (sendMessage_text_boundary.2.2.2 text2000
      (string_replicate_ne_empty _ (by decide)) (jsTrim_replicate_x 2000)
      (length_string_replicate 2000 _)).1⟩

/-! ## The getChats aggregation arithmetic (C10) -/

theorem lookup_keyed_map (f : String → Nat) (l : List String) (c : String) :
    List.lookup c (l.map (fun x => (x, f x))) =
      if c ∈ l then some (f c) else none := by
  induction l with
  | nil => simp
  | cons d ds ih =>
    by_cases h : c = d
    · subst h
      simp [List.lookup]
    · have hbeq : (c == d) = false := beq_eq_false_iff_ne.mpr h
      simp [List.lookup, hbeq, h, ih]

theorem unreadMapGet_eq_count (msgs : List RawMsg) (u c : String) :
    unreadMapGet msgs u c =
      msgs.countP (fun m => m.chat == c && (m.receiver == u && !m.isRead)) := by
  unfold unreadMapGet unreadAgg
  rw [lookup_keyed_map]
  by_cases hc : c ∈ (((unreadMatches msgs u).map (fun m => m.chat)).dedup)
  · rw [if_pos hc]
    simp only [Option.getD_some]
    unfold unreadMatches
    rw [List.countP_filter]
  · rw [if_neg hc]
    simp only [Option.getD_none]
    symm
    rw [List.countP_eq_zero]
    intro m hm hpm
    apply hc
    rw [List.mem_dedup]
    simp only [Bool.and_eq_true, beq_iff_eq] at hpm
    refine List.mem_map.mpr ⟨m, ?_, hpm.1⟩
    unfold unreadMatches
    rw [List.mem_filter]
    exact ⟨hm, by simp [hpm.2.1, hpm.2.2]⟩

/-- C10: internal consistency of the `getChats` response.  In every
response, `totalUnread` equals the sum of the counts of the buckets of the
single grouped aggregation, and the `unreadCount` attached to each
returned chat equals the number of messages with `receiver` equal to the
caller, `isRead` false, and `chat` equal to that chat id (0 when the
aggregation produced no bucket for it, in particular for chats with no
unread messages). -/
theorem getChats_response_consistency (chats : List ChatRecord)
    (msgs : List RawMsg) (u : String) :
    (getChatsResp chats msgs u).totalUnread =
      ((unreadAgg msgs u).map (fun b => b.2)).sum ∧
    ∀ p ∈ (getChatsResp chats msgs u).chats,
      p.2 = msgs.countP (fun m =>
        m.chat == p.1.id && (m.receiver == u && !m.isRead)) := by
  refine ⟨rfl, ?_⟩
  intro p hp
  simp only [getChatsResp, List.mem_map] at hp
  obtain ⟨c, _, rfl⟩ := hp
  exact unreadMapGet_eq_count msgs u c.id

/-- Witness for C10: the consistency instantiated on a concrete response
with one unread message. -/
theorem getChats_response_consistency_witness :
    (chatRec1, 1).2 =
      [({ chat := chatId1, receiver := uidB, isRead := false } : RawMsg)].countP
        (fun m => m.chat == (chatRec1, 1).1.id && (m.receiver == uidB && !m.isRead)) :=
  (getChats_response_consistency [chatRec1]
    [{ chat := chatId1, receiver := uidB, isRead := false }] uidB).2
    (chatRec1, 1) (by decide)

end AdsPlatform
